import Mathlib

/-!
Shallow embedding of the Optimistic-ACK attack tool (TypeScript sources):
the segment codec (PacketCrafter: createTCPHeader, createPseudoHeader,
calculateChecksum, createOptimisticACKPacket) and the attack engine
(OptimisticACKAttacker: validateConfig, establishConnection,
sendOptimisticACK, stopAttack, metrics counters).

JavaScript numbers are modelled as exact integers (Int or Nat): every
arithmetic value reached in this development stays far below 2 to the 53,
where IEEE-754 doubles are exact.  The bitwise operators of JavaScript
coerce their operands through ToInt32 / ToUint32; these coercions are
modelled explicitly, because they are observable in calculateChecksum.
-/

namespace OptAck

/-- ToUint32 of an exact-integer JavaScript number: the value modulo 2 to
the 32, as the unsigned 32-bit bit pattern. -/
def toUint32 (a : Int) : Nat := (a % 4294967296).toNat

/-- ToInt32 of an exact-integer JavaScript number: the bit pattern of
toUint32 reinterpreted as a signed 32-bit integer. -/
def toInt32 (a : Int) : Int :=
  if toUint32 a < 2147483648 then (toUint32 a : Int) else (toUint32 a : Int) - 4294967296

/-- JavaScript bitwise AND: both operands coerced through ToInt32, the and
taken on the 32-bit patterns, the result read back as a signed 32-bit
integer. -/
def jsAnd (a b : Int) : Int := toInt32 ((toUint32 a &&& toUint32 b : Nat) : Int)

/-- JavaScript bitwise NOT: ToInt32 then complement, which on integers is
negation minus one. -/
def jsNot (a : Int) : Int := -(toInt32 a) - 1

/-- JavaScript signed right shift by 16: ToInt32 then an arithmetic shift,
which is floor division by 2 to the 16 (Int division in Lean is Euclidean,
equal to floor division for a positive divisor). -/
def jsShr16 (a : Int) : Int := toInt32 a / 65536

/-- Source PacketCrafter.calculateChecksum, summation loop: iterates over
the buffer two bytes at a time, adding the 16-bit big-endian word; a final
odd byte is shifted into the high half.  The accumulator is a plain
JavaScript addition, hence exact. -/
def sum16 : List Nat → Nat
  | [] => 0
  | [b] => b * 256
  | b0 :: b1 :: rest => (b0 * 256 + b1) + sum16 rest

/-- Source PacketCrafter.calculateChecksum, carry-fold loop:
while (sum > 0xFFFF) sum = (sum & 0xFFFF) + (sum >> 16), with the
JavaScript 32-bit coercions of the two bitwise operators made explicit. -/
def foldJS (s : Int) : Int :=
  if _h : 65535 < s then foldJS (jsAnd s 65535 + jsShr16 s) else s
termination_by s.toNat
decreasing_by
  have hand : ∀ n : Nat, n &&& 65535 = n % 65536 := by
    intro n
    have h16 := Nat.and_pow_two_sub_one_eq_mod n 16
    norm_num at h16
    exact h16
  simp only [jsAnd, jsShr16, toInt32, toUint32] at *
  have h65535 : (((65535 : Int) % 4294967296).toNat) = 65535 := by decide
  rw [h65535, hand] at *
  split_ifs at * <;> omega

/-- Source PacketCrafter.calculateChecksum: fold the word sum, then return
the bitwise complement masked to 16 bits, with JavaScript semantics. -/
def calculateChecksum (data : List Nat) : Int :=
  jsAnd (jsNot (foldJS (sum16 data))) 65535

/-- Modelled from the spec: the list of 16-bit big-endian words of a byte
sequence, an odd trailing byte padded with a zero low byte. -/
def toWords : List Nat → List Nat
  | [] => []
  | [b] => [b * 256]
  | b0 :: b1 :: rest => (b0 * 256 + b1) :: toWords rest

/-- Modelled from the spec: fold carries above 16 bits back into the low
16 bits repeatedly, in exact natural-number arithmetic. -/
def foldCarries (n : Nat) : Nat :=
  if h : 65535 < n then foldCarries (n % 65536 + n / 65536) else n
termination_by n
decreasing_by omega

/-- Modelled from the spec: the standard Internet checksum of a byte
sequence: sum the big-endian words, fold the carries, then take the
ones-complement, that is the bitwise NOT masked to 16 bits. -/
def internetChecksum (data : List Nat) : Nat :=
  65535 ^^^ foldCarries (toWords data).sum

/-- The six TCP control flags, as in the TCPPacket interface. -/
structure TCPFlags where
  syn : Bool
  ack : Bool
  fin : Bool
  rst : Bool
  psh : Bool
  urg : Bool
deriving DecidableEq

/-- Buffer.writeUInt8: set one byte. -/
def writeUInt8 (buf : List Nat) (v : Nat) (off : Nat) : List Nat :=
  buf.set off v

/-- Buffer.writeUInt16BE: set two bytes, big-endian. -/
def writeUInt16BE (buf : List Nat) (v : Nat) (off : Nat) : List Nat :=
  (buf.set off (v / 256)).set (off + 1) (v % 256)

/-- Buffer.writeUInt32BE: set four bytes, big-endian. -/
def writeUInt32BE (buf : List Nat) (v : Nat) (off : Nat) : List Nat :=
  ((((buf.set off (v / 16777216 % 256)).set (off + 1) (v / 65536 % 256)).set
    (off + 2) (v / 256 % 256)).set (off + 3) (v % 256))

/-- Source createTCPHeader flags byte: the six control-flag bits or-ed
together, URG 0x20, ACK 0x10, PSH 0x08, RST 0x04, SYN 0x02, FIN 0x01. -/
def flagsByte2 (flags : TCPFlags) : Nat :=
  (((((if flags.urg then 32 else 0) ||| (if flags.ack then 16 else 0)) |||
      (if flags.psh then 8 else 0)) ||| (if flags.rst then 4 else 0)) |||
      (if flags.syn then 2 else 0)) ||| (if flags.fin then 1 else 0)

/-- Source PacketCrafter.createTCPHeader: validates both ports and the
window size against the 0..65535 range before any byte is written, then
lays the 20-byte header out by the writeUIntNBE calls of the source, in
source order.  Sequence and acknowledgment numbers pass through the
JavaScript unsigned coercion (value, shifted right unsigned by zero). -/
def createTCPHeader (sourcePort destPort : Int) (sequenceNumber ackNumber : Int)
    (flags : TCPFlags) (windowSize : Int) : Except String (List Nat) :=
  if sourcePort < 0 ∨ 65535 < sourcePort then
    .error ("Invalid source port")
  else if destPort < 0 ∨ 65535 < destPort then
    .error ("Invalid destination port")
  else if windowSize < 0 ∨ 65535 < windowSize then
    .error ("Invalid window size")
  else
    let h0 := List.replicate 20 0
    let h1 := writeUInt16BE h0 sourcePort.toNat 0
    let h2 := writeUInt16BE h1 destPort.toNat 2
    let h3 := writeUInt32BE h2 (toUint32 sequenceNumber) 4
    let h4 := writeUInt32BE h3 (toUint32 ackNumber) 8
    let h5 := writeUInt8 h4 80 12
    let h6 := writeUInt8 h5 (flagsByte2 flags) 13
    let h7 := writeUInt16BE h6 windowSize.toNat 14
    let h8 := writeUInt16BE h7 0 16
    let h9 := writeUInt16BE h8 0 18
    .ok h9

/-- A parsed dotted-quad IPv4 address: the four components produced by
split and parseInt in createPseudoHeader. -/
structure IPv4 where
  p0 : Int
  p1 : Int
  p2 : Int
  p3 : Int
deriving DecidableEq

/-- Range condition on a parsed address: every component within 0..255,
exactly the check of createPseudoHeader. -/
def validIPv4 (ip : IPv4) : Prop :=
  0 ≤ ip.p0 ∧ ip.p0 ≤ 255 ∧ 0 ≤ ip.p1 ∧ ip.p1 ≤ 255 ∧
  0 ≤ ip.p2 ∧ ip.p2 ≤ 255 ∧ 0 ≤ ip.p3 ∧ ip.p3 ≤ 255

instance (ip : IPv4) : Decidable (validIPv4 ip) := by
  unfold validIPv4
  infer_instance

/-- Source PacketCrafter.createPseudoHeader: validates every component of
both addresses against the 0..255 range, then lays out the 12-byte
pseudo-header: source address, destination address, one reserved zero
byte, protocol 6, and the 16-bit big-endian TCP length. -/
def createPseudoHeader (sourceIP destIP : IPv4) (tcpLength : Nat) :
    Except String (List Nat) :=
  let parts := [sourceIP.p0, sourceIP.p1, sourceIP.p2, sourceIP.p3,
                destIP.p0, destIP.p1, destIP.p2, destIP.p3]
  if parts.any (fun p => decide (p < 0) || decide (255 < p)) then
    .error ("Invalid IP address component")
  else
    let b0 := List.replicate 12 0
    let b1 := writeUInt8 b0 sourceIP.p0.toNat 0
    let b2 := writeUInt8 b1 sourceIP.p1.toNat 1
    let b3 := writeUInt8 b2 sourceIP.p2.toNat 2
    let b4 := writeUInt8 b3 sourceIP.p3.toNat 3
    let b5 := writeUInt8 b4 destIP.p0.toNat 4
    let b6 := writeUInt8 b5 destIP.p1.toNat 5
    let b7 := writeUInt8 b6 destIP.p2.toNat 6
    let b8 := writeUInt8 b7 destIP.p3.toNat 7
    let b9 := writeUInt8 b8 0 8
    let b10 := writeUInt8 b9 6 9
    let b11 := writeUInt16BE b10 tcpLength 10
    .ok b11

/-- The flag set passed by createOptimisticACKPacket: ACK set, all other
flags clear. -/
def ackOnlyFlags : TCPFlags :=
  { syn := false, ack := true, fin := false, rst := false, psh := false, urg := false }

/-- Source PacketCrafter.createOptimisticACKPacket: clamps the requested
window to 65535, builds the TCP header, builds the pseudo-header over the
header length, computes the checksum of their concatenation, and writes it
into the header at offset 16.  The returned value is the final 20-byte
buffer of the TCPPacket. -/
def createOptimisticACKPacket (sourceIP : IPv4) (sourcePort : Int)
    (targetIP : IPv4) (targetPort : Int) (sequenceNumber ackNumber : Int)
    (windowSize : Int) : Except String (List Nat) :=
  let clampedWindowSize := min windowSize 65535
  match createTCPHeader sourcePort targetPort sequenceNumber ackNumber
      ackOnlyFlags clampedWindowSize with
  | .error e => .error e
  | .ok tcpHeader =>
    match createPseudoHeader sourceIP targetIP tcpHeader.length with
    | .error e => .error e
    | .ok pseudoHeader =>
      let checksum := calculateChecksum (pseudoHeader ++ tcpHeader)
      .ok (writeUInt16BE tcpHeader checksum.toNat 16)

/-- The tunable attack parameters of AttackConfig that carry numeric or
boolean weight; the JavaScript numbers attackDuration, packetInterval and
windowScale are modelled as rationals, the byte count ackAdvanceSize as a
natural number (it is integral in every use). -/
structure AttackConfig where
  targetPort : Int
  attackDuration : ℚ
  packetInterval : ℚ
  ackAdvanceSize : Nat
  windowScale : ℚ
  enableTransfer : Bool
  measureSpeed : Bool
deriving DecidableEq

/-- Source OptimisticACKAttacker.validateConfig: when windowScale exceeds
one, 65535 times it exceeds 65535, and windowScale is reset to the floor
of 65535 over 32768; targetPort is clamped into 1..65535 and the other
numeric parameters are clamped from below by one.  No lower bound is
imposed on windowScale.  (The transferUrl and transferSize defaulting of
the source is string plumbing with no bearing on any claim and is not
modelled.) -/
def validateConfig (c : AttackConfig) : AttackConfig :=
  let ws := if 1 < c.windowScale then
      (if 65535 < 65535 * c.windowScale then ((⌊(65535 : ℚ) / 32768⌋ : ℤ) : ℚ)
       else c.windowScale)
    else c.windowScale
  { c with
    windowScale := ws,
    targetPort := max 1 (min 65535 c.targetPort),
    packetInterval := max 1 c.packetInterval,
    ackAdvanceSize := max 1 c.ackAdvanceSize,
    attackDuration := max 1 c.attackDuration }

/-- The AttackMetrics fields the claims reason about; packetsPressed and
successfulAcks are the spec names packetsEmitted and successfulEmissions. -/
structure AttackMetrics where
  packetsPressed : Nat
  successfulAcks : Nat
  connectionEstablished : Bool
  currentSpeed : ℚ
  totalDataTransferred : Nat
  transferActive : Bool
deriving DecidableEq

/-- One OptimisticACKAttacker session: configuration, counters, and the
lifecycle booleans standing for the nullable timer, connection, socket
manager and monitor handles of the source. -/
structure AttackerState where
  config : AttackConfig
  sequenceNumber : Nat
  ackNumber : Nat
  metrics : AttackMetrics
  attackTimerSet : Bool
  transferTimerSet : Bool
  connectionOpen : Bool
  socketConnections : List String
  socketInitialized : Bool
  monitorRunning : Bool
  isAttackActive : Bool
deriving DecidableEq

/-- The metrics object built in the OptimisticACKAttacker constructor:
all counters zero, all flags false. -/
def initMetrics : AttackMetrics :=
  { packetsPressed := 0, successfulAcks := 0, connectionEstablished := false,
    currentSpeed := 0, totalDataTransferred := 0, transferActive := false }

/-- The OptimisticACKAttacker constructor: stores the validated
configuration and fresh metrics; the RawSocketManager constructor marks
itself initialized and the NetworkMonitor constructor starts its timer. -/
def mkAttacker (config : AttackConfig) : AttackerState :=
  { config := validateConfig config, sequenceNumber := 0, ackNumber := 0,
    metrics := initMetrics, attackTimerSet := false, transferTimerSet := false,
    connectionOpen := false, socketConnections := [], socketInitialized := true,
    monitorRunning := true, isAttackActive := false }

/-- Source establishConnection after a successful Transport connection:
records the connection, sets connectionEstablished, draws a fresh
sequence number and resets the acknowledgment number to one. -/
def establishConnection (s : AttackerState) (seqInit : Nat) : AttackerState :=
  { s with
    connectionOpen := true,
    metrics := { s.metrics with connectionEstablished := true },
    sequenceNumber := seqInit,
    ackNumber := 1 }

/-- Source sendOptimisticACK, window-size computation: base 32768,
multiplied by windowScale and clamped to 65535 when windowScale exceeds
one, then multiplied by three halves and clamped to 65535 again when a
concurrent transfer is active. -/
def computeWindowSize (windowScale : ℚ) (transferActive : Bool) : ℚ :=
  let baseWindowSize : ℚ := 32768
  let w := if 1 < windowScale then min 65535 (baseWindowSize * windowScale)
           else baseWindowSize
  if transferActive then min 65535 (w * (3 / 2)) else w

/-- Source sendOptimisticACK: returns unchanged when the socket manager is
not ready; otherwise advances the acknowledgment number by ackAdvanceSize
(plain JavaScript addition, no 32-bit wrap), crafts and emits the packet,
and on a successful emission increments packetsPressed and successfulAcks;
an emission failure is caught inside the function and leaves the counters
unchanged. -/
def sendOptimisticACK (s : AttackerState) (sendOk : Bool) : AttackerState :=
  if s.socketInitialized = false then s
  else
    let s1 := { s with ackNumber := s.ackNumber + s.config.ackAdvanceSize }
    if sendOk then
      { s1 with
        metrics := { s1.metrics with
                     packetsPressed := s1.metrics.packetsPressed + 1,
                     successfulAcks := s1.metrics.successfulAcks + 1 } }
    else s1

/-- The attack loop body applied over a list of per-tick emission
outcomes: each tick runs sendOptimisticACK and the loop continues whether
or not the emission succeeded (the loop wraps each tick in its own
try-catch). -/
def runTicks (s : AttackerState) (outcomes : List Bool) : AttackerState :=
  outcomes.foldl sendOptimisticACK s

/-- Source stopAttack: clears the active flag and both timers, destroys
and drops the connection, closes the socket manager (destroying and
clearing every held connection and marking it uninitialized) and stops the
network monitor.  Every step is an unconditional overwrite or a
null-guarded clear, so the function is total and never throws. -/
def stopAttack (s : AttackerState) : AttackerState :=
  { s with
    isAttackActive := false,
    attackTimerSet := false,
    transferTimerSet := false,
    connectionOpen := false,
    socketConnections := [],
    socketInitialized := false,
    monitorRunning := false }

/-- The externally triggered transitions of one attacker session, each a
direct image of a source mutation site of OptimisticACKAttacker. -/
inductive AttackerEvent where
  | startAttack : AttackerEvent
  | establish (seqInit : Nat) : AttackerEvent
  | tick (sendOk : Bool) : AttackerEvent
  | startTransfer : AttackerEvent
  | chunkReceived (bytes : Nat) : AttackerEvent
  | endTransfer : AttackerEvent
  | updateSpeed (elapsedSeconds : ℚ) : AttackerEvent
  | stop : AttackerEvent
deriving DecidableEq

/-- The transition function over attacker events: executeAttack activation,
connection establishment, one attack-loop tick, transfer start and end,
transfer chunk accounting, the updateMetrics speed refresh, and stop. -/
def applyEvent (s : AttackerState) (e : AttackerEvent) : AttackerState :=
  match e with
  | .startAttack => { s with isAttackActive := true }
  | .establish seqInit => establishConnection s seqInit
  | .tick sendOk => sendOptimisticACK s sendOk
  | .startTransfer => { s with metrics := { s.metrics with transferActive := true } }
  | .chunkReceived n => { s with metrics := { s.metrics with
      totalDataTransferred := s.metrics.totalDataTransferred + n } }
  | .endTransfer => { s with metrics := { s.metrics with transferActive := false } }
  | .updateSpeed t => { s with metrics := { s.metrics with
      currentSpeed := if 0 < t then (s.metrics.totalDataTransferred : ℚ) / t else 0 } }
  | .stop => stopAttack s

/-- Every state reachable by a session: the constructor state of a
configuration followed by any event sequence. -/
def runAttacker (config : AttackConfig) (events : List AttackerEvent) : AttackerState :=
  events.foldl applyEvent (mkAttacker config)

/-! Helper lemmas: bit-level arithmetic and the bridge between the
JavaScript checksum and the ideal Internet checksum. -/

theorem and_65536_mod (n : Nat) : n &&& 65535 = n % 65536 := by
  have h16 := Nat.and_pow_two_sub_one_eq_mod n 16
  norm_num at h16
  exact h16

theorem xor_65535_sub (f : Nat) (h : f < 65536) : 65535 ^^^ f = 65535 - f := by
  have hx : (BitVec.ofNat 16 f).toNat = f := by
    simp [BitVec.toNat_ofNat, Nat.mod_eq_of_lt h]
  have h1 : (BitVec.allOnes 16 ^^^ BitVec.ofNat 16 f).toNat = 65535 ^^^ f := by
    rw [BitVec.toNat_xor, BitVec.toNat_allOnes, hx]
  have h2 : (~~~ (BitVec.ofNat 16 f)).toNat = 65535 - f := by
    rw [BitVec.toNat_not, hx]
  rw [← h1, BitVec.allOnes_xor, h2]

theorem toUint32_cast (a : Int) (h0 : 0 ≤ a) (h1 : a < 4294967296) :
    (toUint32 a : Int) = a := by
  unfold toUint32
  omega

theorem toUint32_65535 : toUint32 65535 = 65535 := by decide

theorem toInt32_small (a : Int) (h0 : 0 ≤ a) (h1 : a < 2147483648) :
    toInt32 a = a := by
  unfold toInt32 toUint32
  split <;> omega

theorem jsAnd_65535 (a : Int) : jsAnd a 65535 = ((toUint32 a % 65536 : Nat) : Int) := by
  unfold jsAnd
  rw [toUint32_65535, and_65536_mod]
  apply toInt32_small <;> omega

theorem jsShr16_nat (n : Nat) (h : (n : Int) < 2147483648) :
    jsShr16 n = ((n / 65536 : Nat) : Int) := by
  unfold jsShr16
  rw [toInt32_small _ (by omega) h]
  omega

theorem toUint32_nat (n : Nat) (h : (n : Int) < 4294967296) : toUint32 n = n := by
  unfold toUint32
  omega

theorem foldJS_eq_foldCarries (n : Nat) (h : (n : Int) < 2147483648) :
    foldJS n = ((foldCarries n : Nat) : Int) := by
  induction n using Nat.strong_induction_on with
  | _ n ih =>
    rw [foldJS, foldCarries]
    by_cases hc : 65535 < n
    · have hc2 : (65535 : Int) < n := by exact_mod_cast hc
      rw [dif_pos hc2, dif_pos hc]
      rw [jsAnd_65535, toUint32_nat n (by omega), jsShr16_nat n h]
      have harg : ((n % 65536 : Nat) : Int) + ((n / 65536 : Nat) : Int) =
          ((n % 65536 + n / 65536 : Nat) : Int) := by push_cast; ring
      rw [harg]
      exact ih (n % 65536 + n / 65536) (by omega) (by omega)
    · have hc2 : ¬ (65535 : Int) < n := by exact_mod_cast hc
      rw [dif_neg hc2, dif_neg hc]

theorem foldCarries_le (n : Nat) : foldCarries n ≤ 65535 := by
  induction n using Nat.strong_induction_on with
  | _ n ih =>
    rw [foldCarries]
    by_cases hc : 65535 < n
    · rw [dif_pos hc]
      exact ih _ (by omega)
    · rw [dif_neg hc]
      omega

theorem foldCarries_mod (n : Nat) : foldCarries n % 65535 = n % 65535 := by
  induction n using Nat.strong_induction_on with
  | _ n ih =>
    rw [foldCarries]
    by_cases hc : 65535 < n
    · rw [dif_pos hc, ih _ (by omega)]
      omega
    · rw [dif_neg hc]

theorem foldCarries_pos (n : Nat) (h : 0 < n) : 0 < foldCarries n := by
  induction n using Nat.strong_induction_on with
  | _ n ih =>
    rw [foldCarries]
    by_cases hc : 65535 < n
    · rw [dif_pos hc]
      exact ih _ (by omega) (by omega)
    · rw [dif_neg hc]
      exact h

theorem foldCarries_of_mod_zero (n : Nat) (hmod : n % 65535 = 0) (hpos : 0 < n) :
    foldCarries n = 65535 := by
  have h1 := foldCarries_le n
  have h2 := foldCarries_mod n
  have h3 := foldCarries_pos n hpos
  omega

theorem foldCarries_of_le (n : Nat) (h : n ≤ 65535) : foldCarries n = n := by
  rw [foldCarries, dif_neg (by omega)]

theorem jsAnd_jsNot (r : Int) (h0 : 0 ≤ r) (h1 : r ≤ 65535) :
    jsAnd (jsNot r) 65535 = 65535 - r := by
  rw [jsAnd_65535]
  unfold jsNot
  rw [toInt32_small r h0 (by omega)]
  unfold toUint32
  omega

theorem calculateChecksum_eq_ideal (data : List Nat)
    (h : (sum16 data : Int) < 2147483648) :
    calculateChecksum data = ((65535 - foldCarries (sum16 data) : Nat) : Int) := by
  unfold calculateChecksum
  rw [foldJS_eq_foldCarries _ h]
  have hle := foldCarries_le (sum16 data)
  rw [jsAnd_jsNot _ (by omega) (by exact_mod_cast hle)]
  omega

theorem toWords_sum (l : List Nat) : (toWords l).sum = sum16 l := by
  induction l using sum16.induct <;> simp [toWords, sum16, *]

theorem internetChecksum_eq_ideal (data : List Nat) :
    internetChecksum data = 65535 - foldCarries (sum16 data) := by
  unfold internetChecksum
  rw [toWords_sum]
  exact xor_65535_sub _ (by have := foldCarries_le (sum16 data); omega)

/-! Layout lemmas: the write-chains of the codec reduced to explicit
byte lists. -/

set_option maxHeartbeats 1600000 in
theorem createTCPHeader_layout (sp dp seq ack : Int) (fl : TCPFlags) (w : Int)
    (hsp0 : 0 ≤ sp) (hsp1 : sp ≤ 65535) (hdp0 : 0 ≤ dp) (hdp1 : dp ≤ 65535)
    (hw0 : 0 ≤ w) (hw1 : w ≤ 65535) :
    createTCPHeader sp dp seq ack fl w = .ok
      [sp.toNat / 256, sp.toNat % 256, dp.toNat / 256, dp.toNat % 256,
       toUint32 seq / 16777216 % 256, toUint32 seq / 65536 % 256,
       toUint32 seq / 256 % 256, toUint32 seq % 256,
       toUint32 ack / 16777216 % 256, toUint32 ack / 65536 % 256,
       toUint32 ack / 256 % 256, toUint32 ack % 256,
       80, flagsByte2 fl,
       w.toNat / 256, w.toNat % 256, 0, 0, 0, 0] := by
  unfold createTCPHeader
  rw [if_neg (by omega), if_neg (by omega), if_neg (by omega)]
  simp [writeUInt8, writeUInt16BE, writeUInt32BE, List.replicate, List.set]

theorem createPseudoHeader_layout (sIP dIP : IPv4) (len : Nat)
    (hs : validIPv4 sIP) (hd : validIPv4 dIP) :
    createPseudoHeader sIP dIP len = .ok
      [sIP.p0.toNat, sIP.p1.toNat, sIP.p2.toNat, sIP.p3.toNat,
       dIP.p0.toNat, dIP.p1.toNat, dIP.p2.toNat, dIP.p3.toNat,
       0, 6, len / 256, len % 256] := by
  obtain ⟨a0, a1, a2, a3, a4, a5, a6, a7⟩ := hs
  obtain ⟨b0, b1, b2, b3, b4, b5, b6, b7⟩ := hd
  unfold createPseudoHeader
  rw [if_neg (by simp; omega)]
  simp [writeUInt8, writeUInt16BE, List.replicate, List.set]

theorem sum16_append_even (a b : List Nat) (h : a.length % 2 = 0) :
    sum16 (a ++ b) = sum16 a + sum16 b := by
  induction a using sum16.induct with
  | case1 => simp [sum16]
  | case2 x => simp at h
  | case3 x y rest ih =>
    simp only [List.length_cons] at h
    simp only [List.cons_append, sum16]
    have ih2 := ih (by omega)
    simp only [List.append_eq] at ih2 ⊢
    omega

/-! Attacker-side helper lemmas. -/

theorem sendOptimisticACK_socket (s : AttackerState) (ok : Bool) :
    (sendOptimisticACK s ok).socketInitialized = s.socketInitialized := by
  unfold sendOptimisticACK
  split
  · rfl
  · split <;> rfl

theorem sendOptimisticACK_counters_false (s : AttackerState) :
    (sendOptimisticACK s false).metrics.packetsPressed = s.metrics.packetsPressed ∧
    (sendOptimisticACK s false).metrics.successfulAcks = s.metrics.successfulAcks := by
  unfold sendOptimisticACK
  split <;> simp

theorem sendOptimisticACK_counters_true (s : AttackerState)
    (h : s.socketInitialized = true) :
    (sendOptimisticACK s true).metrics.packetsPressed = s.metrics.packetsPressed + 1 ∧
    (sendOptimisticACK s true).metrics.successfulAcks = s.metrics.successfulAcks + 1 := by
  unfold sendOptimisticACK
  rw [if_neg (by simp [h])]
  simp

theorem runTicks_counters (s : AttackerState) (outcomes : List Bool)
    (h : s.socketInitialized = true) :
    (runTicks s outcomes).metrics.packetsPressed =
      s.metrics.packetsPressed + outcomes.count true ∧
    (runTicks s outcomes).metrics.successfulAcks =
      s.metrics.successfulAcks + outcomes.count true := by
  induction outcomes generalizing s with
  | nil => simp [runTicks]
  | cons ok rest ih =>
    have hsock : (sendOptimisticACK s ok).socketInitialized = true := by
      rw [sendOptimisticACK_socket]; exact h
    have hrest := ih (sendOptimisticACK s ok) hsock
    simp only [runTicks, List.foldl_cons] at hrest ⊢
    cases ok with
    | false =>
      have hf := sendOptimisticACK_counters_false s
      simp only [List.count_cons, hrest.1, hrest.2, hf.1, hf.2]
      constructor <;> simp
    | true =>
      have ht := sendOptimisticACK_counters_true s h
      simp only [List.count_cons, hrest.1, hrest.2, ht.1, ht.2]
      constructor <;> simp <;> omega

theorem applyEvent_press_eq_acks (s : AttackerState) (e : AttackerEvent)
    (h : s.metrics.packetsPressed = s.metrics.successfulAcks) :
    (applyEvent s e).metrics.packetsPressed = (applyEvent s e).metrics.successfulAcks := by
  cases e with
  | tick ok =>
    cases ok with
    | false =>
      have hf := sendOptimisticACK_counters_false s
      simp only [applyEvent, hf.1, hf.2, h]
    | true =>
      by_cases hs : s.socketInitialized = true
      · have ht := sendOptimisticACK_counters_true s hs
        simp only [applyEvent, ht.1, ht.2, h]
      · simp only [applyEvent, sendOptimisticACK, if_pos (by simpa using hs)]
        exact h
  | startAttack => exact h
  | establish seqInit => exact h
  | startTransfer => exact h
  | chunkReceived n => exact h
  | endTransfer => exact h
  | updateSpeed t => exact h
  | stop => exact h

/-! Claim theorems. -/

/-- C9: calling stop on an already-stopped session is a no-op that throws
nothing: stopAttack is a total function, a second application returns the
very same state, and the stopped state has the active flag false, both
timers cleared, the connection dropped and the socket manager and monitor
released. -/
theorem stopAttack_idempotent_noop : ∀ s : AttackerState,
    stopAttack (stopAttack s) = stopAttack s ∧
    (stopAttack s).isAttackActive = false ∧
    (stopAttack s).attackTimerSet = false ∧
    (stopAttack s).transferTimerSet = false ∧
    (stopAttack s).connectionOpen = false ∧
    (stopAttack s).socketConnections = [] ∧
    (stopAttack s).socketInitialized = false ∧
    (stopAttack s).monitorRunning = false := by
  intro s
  exact ⟨rfl, rfl, rfl, rfl, rfl, rfl, rfl, rfl⟩

/-- C10: in every reachable state of a session, the metrics counters
packetsPressed and successfulAcks are equal: both start at zero in the
constructor and the only mutation site increments both together after a
successful send, so the reported emission success rate is always one
hundred percent. -/
theorem counters_always_equal : ∀ (cfg : AttackConfig) (events : List AttackerEvent),
    (runAttacker cfg events).metrics.packetsPressed =
      (runAttacker cfg events).metrics.successfulAcks := by
  intro cfg events
  suffices h : ∀ s : AttackerState, s.metrics.packetsPressed = s.metrics.successfulAcks →
      (events.foldl applyEvent s).metrics.packetsPressed =
        (events.foldl applyEvent s).metrics.successfulAcks by
    exact h (mkAttacker cfg) rfl
  induction events with
  | nil => intro s hs; exact hs
  | cons e rest ih =>
    intro s hs
    simp only [List.foldl_cons]
    exact ih (applyEvent s e) (applyEvent_press_eq_acks s e hs)

/-- C8: a failed per-tick emission is non-fatal: the failing tick leaves
packetsPressed and successfulAcks unchanged, a successful emission
increments both by one, and the loop keeps processing every remaining
tick, so after any mix of outcomes the counters have grown by exactly the
number of successful emissions. -/
theorem emission_failure_nonfatal :
    (∀ s : AttackerState,
      (sendOptimisticACK s false).metrics.packetsPressed = s.metrics.packetsPressed ∧
      (sendOptimisticACK s false).metrics.successfulAcks = s.metrics.successfulAcks) ∧
    (∀ s : AttackerState, s.socketInitialized = true →
      (sendOptimisticACK s true).metrics.packetsPressed = s.metrics.packetsPressed + 1 ∧
      (sendOptimisticACK s true).metrics.successfulAcks = s.metrics.successfulAcks + 1) ∧
    (∀ (s : AttackerState) (outcomes : List Bool), s.socketInitialized = true →
      (runTicks s outcomes).metrics.packetsPressed =
        s.metrics.packetsPressed + outcomes.count true ∧
      (runTicks s outcomes).metrics.successfulAcks =
        s.metrics.successfulAcks + outcomes.count true) := by
  exact ⟨sendOptimisticACK_counters_false,
         sendOptimisticACK_counters_true,
         runTicks_counters⟩

theorem toUint32_lt (a : Int) : toUint32 a < 4294967296 := by
  unfold toUint32
  omega

theorem flagsByte2_additive (fl : TCPFlags) :
    flagsByte2 fl = (if fl.urg then 32 else 0) + (if fl.ack then 16 else 0) +
      (if fl.psh then 8 else 0) + (if fl.rst then 4 else 0) +
      (if fl.syn then 2 else 0) + (if fl.fin then 1 else 0) := by
  rcases fl with ⟨s, a, f, r, p, u⟩
  cases s <;> cases a <;> cases f <;> cases r <;> cases p <;> cases u <;> rfl

/-- C4: for every in-range input the encoded header is exactly 20 bytes,
big-endian: source port at offset 0, destination port at 2, sequence at 4,
acknowledgment at 8, the fixed data-offset byte 0x50 at 12, the flags byte
at 13 packing URG 0x20, ACK 0x10, PSH 0x08, RST 0x04, SYN 0x02, FIN 0x01,
window at 14, checksum at 16 still zero, and a zero urgent pointer at 18. -/
theorem header_layout_c4 : ∀ (sp dp seq ack : Int) (fl : TCPFlags) (w : Int),
    0 ≤ sp → sp ≤ 65535 → 0 ≤ dp → dp ≤ 65535 → 0 ≤ w → w ≤ 65535 →
    ∃ h, createTCPHeader sp dp seq ack fl w = .ok h ∧
      h.length = 20 ∧
      h.getD 0 0 * 256 + h.getD 1 0 = sp.toNat ∧
      h.getD 2 0 * 256 + h.getD 3 0 = dp.toNat ∧
      ((h.getD 4 0 * 256 + h.getD 5 0) * 256 + h.getD 6 0) * 256 + h.getD 7 0 =
        toUint32 seq ∧
      ((h.getD 8 0 * 256 + h.getD 9 0) * 256 + h.getD 10 0) * 256 + h.getD 11 0 =
        toUint32 ack ∧
      h.getD 12 0 = 80 ∧
      h.getD 13 0 = (if fl.urg then 32 else 0) + (if fl.ack then 16 else 0) +
        (if fl.psh then 8 else 0) + (if fl.rst then 4 else 0) +
        (if fl.syn then 2 else 0) + (if fl.fin then 1 else 0) ∧
      h.getD 14 0 * 256 + h.getD 15 0 = w.toNat ∧
      h.getD 16 0 = 0 ∧ h.getD 17 0 = 0 ∧ h.getD 18 0 = 0 ∧ h.getD 19 0 = 0 := by
  intro sp dp seq ack fl w hsp0 hsp1 hdp0 hdp1 hw0 hw1
  refine ⟨_, createTCPHeader_layout sp dp seq ack fl w hsp0 hsp1 hdp0 hdp1 hw0 hw1, ?_⟩
  have hseq := toUint32_lt seq
  have hack := toUint32_lt ack
  refine ⟨rfl, ?_, ?_, ?_, ?_, rfl, flagsByte2_additive fl, ?_, rfl, rfl, rfl, rfl⟩ <;>
    simp only [List.getD, List.get?, Option.getD_some] <;> omega

/-- C4 witness at a concrete in-range input. -/
theorem header_layout_c4_witness :
    ∃ h, createTCPHeader 1234 80 1 2 ackOnlyFlags 8192 = .ok h ∧
      h.length = 20 ∧
      h.getD 0 0 * 256 + h.getD 1 0 = (1234 : Int).toNat ∧
      h.getD 2 0 * 256 + h.getD 3 0 = (80 : Int).toNat ∧
      ((h.getD 4 0 * 256 + h.getD 5 0) * 256 + h.getD 6 0) * 256 + h.getD 7 0 =
        toUint32 1 ∧
      ((h.getD 8 0 * 256 + h.getD 9 0) * 256 + h.getD 10 0) * 256 + h.getD 11 0 =
        toUint32 2 ∧
      h.getD 12 0 = 80 ∧
      h.getD 13 0 = (if ackOnlyFlags.urg then 32 else 0) +
        (if ackOnlyFlags.ack then 16 else 0) +
        (if ackOnlyFlags.psh then 8 else 0) + (if ackOnlyFlags.rst then 4 else 0) +
        (if ackOnlyFlags.syn then 2 else 0) + (if ackOnlyFlags.fin then 1 else 0) ∧
      h.getD 14 0 * 256 + h.getD 15 0 = (8192 : Int).toNat ∧
      h.getD 16 0 = 0 ∧ h.getD 17 0 = 0 ∧ h.getD 18 0 = 0 ∧ h.getD 19 0 = 0 :=
  header_layout_c4 1234 80 1 2 ackOnlyFlags 8192 (by decide) (by decide) (by decide)
    (by decide) (by decide) (by decide)

set_option maxHeartbeats 1600000 in
/-- C5: header encoding fails with a field-out-of-range error exactly when
source port, destination port or window leaves 0..65535; the failing call
returns an error and no buffer at all, a successful call returns the full
20-byte buffer; ports minus one and 65536 fail and ports 0 and 65535
succeed. -/
theorem field_validation_c5 :
    (∀ (sp dp seq ack : Int) (fl : TCPFlags) (w : Int),
      (∃ e, createTCPHeader sp dp seq ack fl w = .error e) ↔
      (sp < 0 ∨ 65535 < sp ∨ dp < 0 ∨ 65535 < dp ∨ w < 0 ∨ 65535 < w)) ∧
    (∀ (sp dp seq ack : Int) (fl : TCPFlags) (w : Int) (h : List Nat),
      createTCPHeader sp dp seq ack fl w = .ok h → h.length = 20) ∧
    (∃ e, createTCPHeader (-1) 80 0 0 ackOnlyFlags 8192 = .error e) ∧
    (∃ e, createTCPHeader 65536 80 0 0 ackOnlyFlags 8192 = .error e) ∧
    (∃ e, createTCPHeader 80 (-1) 0 0 ackOnlyFlags 8192 = .error e) ∧
    (∃ e, createTCPHeader 80 65536 0 0 ackOnlyFlags 8192 = .error e) ∧
    (∃ h, createTCPHeader 0 0 0 0 ackOnlyFlags 8192 = .ok h) ∧
    (∃ h, createTCPHeader 65535 65535 0 0 ackOnlyFlags 8192 = .ok h) := by
  refine ⟨?_, ?_, ⟨_, rfl⟩, ⟨_, rfl⟩, ⟨_, rfl⟩, ⟨_, rfl⟩, ⟨_, rfl⟩, ⟨_, rfl⟩⟩
  · intro sp dp seq ack fl w
    unfold createTCPHeader
    split_ifs with h1 h2 h3
    · exact iff_of_true ⟨_, rfl⟩ (by omega)
    · exact iff_of_true ⟨_, rfl⟩ (by omega)
    · exact iff_of_true ⟨_, rfl⟩ (by omega)
    · constructor
      · rintro ⟨e, he⟩
        exact absurd he (by simp)
      · intro hor
        exfalso
        omega
  · intro sp dp seq ack fl w h hok
    unfold createTCPHeader at hok
    split_ifs at hok
    injection hok with hok
    subst hok
    simp only [writeUInt8, writeUInt16BE, writeUInt32BE, List.length_set,
      List.length_replicate]

/-- C5 witness: the successful call at port 0 yields the full header. -/
theorem field_validation_c5_witness :
    ([0, 0, 0, 80, 0, 0, 0, 0, 0, 0, 0, 0, 80, 16, 32, 0, 0, 0, 0, 0] :
      List Nat).length = 20 :=
  field_validation_c5.2.1 0 80 0 0 ackOnlyFlags 8192 _ rfl

theorem getD_pair_65535 (l : List Nat) (h14 : l.getD 14 0 = 255)
    (h15 : l.getD 15 0 = 255) : l.getD 14 0 * 256 + l.getD 15 0 = 65535 := by
  rw [h14, h15]

theorem write16_at16_getD_lt (l : List Nat) (v : Nat) (i : Nat) (h : i < 16) :
    (writeUInt16BE l v 16).getD i 0 = l.getD i 0 := by
  unfold writeUInt16BE
  rw [List.getD_eq_getElem?_getD, List.getElem?_set_ne (by omega),
    List.getElem?_set_ne (by omega), ← List.getD_eq_getElem?_getD]

theorem createOptimisticACKPacket_eq (sIP dIP : IPv4) (sp dp seq ack w : Int)
    (hdr pseudo : List Nat)
    (hH : createTCPHeader sp dp seq ack ackOnlyFlags (min w 65535) = .ok hdr)
    (hlen : hdr.length = 20)
    (hP : createPseudoHeader sIP dIP 20 = .ok pseudo) :
    createOptimisticACKPacket sIP sp dIP dp seq ack w =
      .ok (writeUInt16BE hdr (calculateChecksum (pseudo ++ hdr)).toNat 16) := by
  unfold createOptimisticACKPacket
  simp only [hH, hlen, hP]

theorem createPseudoHeader_layout20 (sIP dIP : IPv4)
    (hs : validIPv4 sIP) (hd : validIPv4 dIP) :
    createPseudoHeader sIP dIP 20 = .ok
      [sIP.p0.toNat, sIP.p1.toNat, sIP.p2.toNat, sIP.p3.toNat,
       dIP.p0.toNat, dIP.p1.toNat, dIP.p2.toNat, dIP.p3.toNat, 0, 6, 0, 20] := by
  have h := createPseudoHeader_layout sIP dIP 20 hs hd
  norm_num at h
  exact h

set_option maxRecDepth 4000 in
/-- C7: any requested window above 65535 is encoded as exactly 65535 at
offset 14 of the produced header, and the build succeeds. -/
theorem window_clamp_c7 : ∀ (sIP dIP : IPv4) (sp dp seq ack w : Int),
    validIPv4 sIP → validIPv4 dIP → 0 ≤ sp → sp ≤ 65535 → 0 ≤ dp → dp ≤ 65535 →
    65535 < w →
    ∃ buf, createOptimisticACKPacket sIP sp dIP dp seq ack w = .ok buf ∧
      buf.getD 14 0 = 255 ∧ buf.getD 15 0 = 255 ∧
      buf.getD 14 0 * 256 + buf.getD 15 0 = 65535 := by
  intro sIP dIP sp dp seq ack w hs hd hsp0 hsp1 hdp0 hdp1 hw
  have hmin : min w 65535 = (65535 : Int) := min_eq_right (by omega)
  have hH : createTCPHeader sp dp seq ack ackOnlyFlags (min w 65535) = .ok
      [sp.toNat / 256, sp.toNat % 256, dp.toNat / 256, dp.toNat % 256,
       toUint32 seq / 16777216 % 256, toUint32 seq / 65536 % 256,
       toUint32 seq / 256 % 256, toUint32 seq % 256,
       toUint32 ack / 16777216 % 256, toUint32 ack / 65536 % 256,
       toUint32 ack / 256 % 256, toUint32 ack % 256,
       80, flagsByte2 ackOnlyFlags,
       (65535 : Int).toNat / 256, (65535 : Int).toNat % 256, 0, 0, 0, 0] := by
    rw [hmin]
    exact createTCPHeader_layout sp dp seq ack ackOnlyFlags 65535 hsp0 hsp1
      hdp0 hdp1 (by omega) (by omega)
  rw [createOptimisticACKPacket_eq sIP dIP sp dp seq ack w _ _ hH rfl
    (createPseudoHeader_layout20 sIP dIP hs hd)]
  refine ⟨_, rfl, ?_, ?_, ?_⟩
  · rw [write16_at16_getD_lt _ _ _ (by omega)]
    rfl
  · rw [write16_at16_getD_lt _ _ _ (by omega)]
    rfl
  · apply getD_pair_65535 <;> (rw [write16_at16_getD_lt _ _ _ (by omega)]; rfl)

/-- C7 witness at a concrete out-of-range window request of 70000. -/
theorem window_clamp_c7_witness :
    ∃ buf, createOptimisticACKPacket ⟨127, 0, 0, 1⟩ 1000 ⟨192, 168, 1, 1⟩ 80
        0 0 70000 = .ok buf ∧
      buf.getD 14 0 = 255 ∧ buf.getD 15 0 = 255 ∧
      buf.getD 14 0 * 256 + buf.getD 15 0 = 65535 :=
  window_clamp_c7 ⟨127, 0, 0, 1⟩ ⟨192, 168, 1, 1⟩ 1000 80 0 0 70000 (by decide)
    (by decide) (by decide) (by decide) (by decide) (by decide) (by decide)

/-- C8 witness: three ticks, two of which succeed, on a concrete ready
session: both counters grow by exactly two. -/
theorem emission_failure_nonfatal_witness :
    (runTicks
      { config := { targetPort := 80, attackDuration := 1, packetInterval := 1,
                    ackAdvanceSize := 1000, windowScale := 1,
                    enableTransfer := false, measureSpeed := false },
        sequenceNumber := 0, ackNumber := 1, metrics := initMetrics,
        attackTimerSet := true, transferTimerSet := false, connectionOpen := true,
        socketConnections := [], socketInitialized := true, monitorRunning := true,
        isAttackActive := true } [true, false, true]).metrics.packetsPressed = 2 ∧
    (runTicks
      { config := { targetPort := 80, attackDuration := 1, packetInterval := 1,
                    ackAdvanceSize := 1000, windowScale := 1,
                    enableTransfer := false, measureSpeed := false },
        sequenceNumber := 0, ackNumber := 1, metrics := initMetrics,
        attackTimerSet := true, transferTimerSet := false, connectionOpen := true,
        socketConnections := [], socketInitialized := true, monitorRunning := true,
        isAttackActive := true } [true, false, true]).metrics.successfulAcks = 2 := by
  have h := emission_failure_nonfatal.2.2
    { config := { targetPort := 80, attackDuration := 1, packetInterval := 1,
                  ackAdvanceSize := 1000, windowScale := 1,
                  enableTransfer := false, measureSpeed := false },
      sequenceNumber := 0, ackNumber := 1, metrics := initMetrics,
      attackTimerSet := true, transferTimerSet := false, connectionOpen := true,
      socketConnections := [], socketInitialized := true, monitorRunning := true,
      isAttackActive := true } [true, false, true] rfl
  exact ⟨h.1.trans (by decide), h.2.trans (by decide)⟩

/-- C6 counterexample: validateConfig imposes no positive lower bound on
windowScale; a configured windowScale of zero passes through unchanged, so
the claim that the configuration is constrained to windowScale above zero
fails on the code. -/
theorem windowScale_zero_counterexample :
    (validateConfig
      { targetPort := 80
        attackDuration := 30
        packetInterval := 10
        ackAdvanceSize := 1000
        windowScale := 0
        enableTransfer := false
        measureSpeed := false }).windowScale = 0 ∧
    ¬ (0 < (validateConfig
      { targetPort := 80
        attackDuration := 30
        packetInterval := 10
        ackAdvanceSize := 1000
        windowScale := 0
        enableTransfer := false
        measureSpeed := false }).windowScale) := by
  constructor
  · norm_num [validateConfig]
  · norm_num [validateConfig]

/-- C6 amended: the per-tick window size is base 32768, scaled by
windowScale and clamped to 65535 when windowScale exceeds one, with an
extra three-halves multiplier clamped to 65535 during an active transfer;
validateConfig clamps any windowScale above one down to one, so the
scaled window never exceeds 65535 — but no positive lower bound on
windowScale is enforced. -/
theorem window_computation_c6 : ∀ (cfg : AttackConfig) (t : Bool),
    (validateConfig cfg).windowScale =
      (if 1 < cfg.windowScale then 1 else cfg.windowScale) ∧
    computeWindowSize (validateConfig cfg).windowScale t ≤ 65535 ∧
    (∀ ws : ℚ, computeWindowSize ws t ≤ 65535) ∧
    (1 < cfg.windowScale →
      computeWindowSize (validateConfig cfg).windowScale t =
        (if t then 49152 else 32768)) := by
  intro cfg t
  have hbound : ∀ ws : ℚ, computeWindowSize ws t ≤ 65535 := by
    intro ws
    unfold computeWindowSize
    split_ifs with h1 h2 h3
    · exact min_le_left _ _
    · exact min_le_left _ _
    · exact min_le_left _ _
    · norm_num
  have hws : (validateConfig cfg).windowScale =
      (if 1 < cfg.windowScale then 1 else cfg.windowScale) := by
    unfold validateConfig
    split_ifs with h1 h2
    · norm_num
    · exfalso
      apply h2
      nlinarith
    · rfl
  refine ⟨hws, hbound _, hbound, ?_⟩
  intro h1
  rw [hws, if_pos h1]
  cases t with
  | false =>
    unfold computeWindowSize
    norm_num
  | true =>
    unfold computeWindowSize
    norm_num

theorem sendOptimisticACK_config (s : AttackerState) (ok : Bool) :
    (sendOptimisticACK s ok).config = s.config := by
  unfold sendOptimisticACK
  split
  · rfl
  · split <;> rfl

theorem sendOptimisticACK_ack (s : AttackerState) (ok : Bool)
    (h : s.socketInitialized = true) :
    (sendOptimisticACK s ok).ackNumber = s.ackNumber + s.config.ackAdvanceSize := by
  unfold sendOptimisticACK
  rw [if_neg (by simp [h])]
  cases ok <;> simp

theorem runTicks_ackNumber (s : AttackerState) (outcomes : List Bool)
    (h : s.socketInitialized = true) :
    (runTicks s outcomes).ackNumber =
      s.ackNumber + outcomes.length * s.config.ackAdvanceSize := by
  induction outcomes generalizing s with
  | nil => simp [runTicks]
  | cons ok rest ih =>
    have hsock : (sendOptimisticACK s ok).socketInitialized = true := by
      rw [sendOptimisticACK_socket]; exact h
    have hrest := ih (sendOptimisticACK s ok) hsock
    simp only [runTicks, List.foldl_cons] at hrest ⊢
    rw [hrest, sendOptimisticACK_ack s ok h, sendOptimisticACK_config s ok,
      List.length_cons]
    ring

/-- C3 counterexample: the session field ackNumber is advanced by plain
JavaScript addition with no 32-bit wrap; with advance size 2 to the 32 a
single tick from the post-connect acknowledgment number one yields
4294967297, not the wrapped value one demanded by the claim. -/
theorem ack_wrap_counterexample :
    (runAttacker
      { targetPort := 80, attackDuration := 30, packetInterval := 10,
        ackAdvanceSize := 4294967296, windowScale := 1, enableTransfer := false,
        measureSpeed := false }
      [AttackerEvent.establish 0, AttackerEvent.tick true]).ackNumber =
      4294967297 ∧
    (1 + 1 * 4294967296) % 4294967296 = 1 ∧ (4294967297 : Nat) ≠ 1 := by
  refine ⟨?_, by norm_num, by norm_num⟩
  rfl

/-- C3 amended: after N loop ticks (successful or failed emissions alike)
the session acknowledgment number equals A0 plus N times the advance size,
exactly and without any 32-bit wrap; the modulo-2-to-32 reduction demanded
by the claim happens only when the number is encoded into the header,
through the unsigned coercion of createTCPHeader. -/
theorem ack_advance_c3_amended :
    (∀ (s : AttackerState) (outcomes : List Bool), s.socketInitialized = true →
      (runTicks s outcomes).ackNumber =
        s.ackNumber + outcomes.length * s.config.ackAdvanceSize) ∧
    (∀ (a : Nat) (sp dp seq : Int) (fl : TCPFlags) (w : Int) (h : List Nat),
      0 ≤ sp → sp ≤ 65535 → 0 ≤ dp → dp ≤ 65535 → 0 ≤ w → w ≤ 65535 →
      createTCPHeader sp dp seq (a : Int) fl w = .ok h →
      ((h.getD 8 0 * 256 + h.getD 9 0) * 256 + h.getD 10 0) * 256 + h.getD 11 0 =
        a % 4294967296) := by
  constructor
  · exact runTicks_ackNumber
  · intro a sp dp seq fl w h hsp0 hsp1 hdp0 hdp1 hw0 hw1 hok
    rw [createTCPHeader_layout sp dp seq (a : Int) fl w hsp0 hsp1 hdp0 hdp1 hw0 hw1]
      at hok
    injection hok with hok
    subst hok
    have hu : toUint32 (a : Int) = a % 4294967296 := by
      unfold toUint32
      omega
    have hult : toUint32 (a : Int) < 4294967296 := toUint32_lt _
    simp only [List.getD, List.get?, Option.getD_some]
    omega

/-- C3 amended witness: two ticks of advance 1000 from acknowledgment
number one give 2001, and the encoded acknowledgment field of a header
built with acknowledgment number 4294967297 is the wrapped value one. -/
theorem ack_advance_c3_amended_witness :
    ((runTicks
      { config := { targetPort := 80, attackDuration := 1, packetInterval := 1,
                    ackAdvanceSize := 1000, windowScale := 1,
                    enableTransfer := false, measureSpeed := false },
        sequenceNumber := 0, ackNumber := 1, metrics := initMetrics,
        attackTimerSet := true, transferTimerSet := false, connectionOpen := true,
        socketConnections := [], socketInitialized := true, monitorRunning := true,
        isAttackActive := true } [true, false]).ackNumber = 1 + 2 * 1000) ∧
    ((([4, 210, 0, 80, 0, 0, 0, 7, 0, 0, 0, 1, 80, 16, 32, 0, 0, 0, 0, 0] :
        List Nat).getD 8 0 * 256 +
      ([4, 210, 0, 80, 0, 0, 0, 7, 0, 0, 0, 1, 80, 16, 32, 0, 0, 0, 0, 0] :
        List Nat).getD 9 0) * 256 +
      ([4, 210, 0, 80, 0, 0, 0, 7, 0, 0, 0, 1, 80, 16, 32, 0, 0, 0, 0, 0] :
        List Nat).getD 10 0) * 256 +
      ([4, 210, 0, 80, 0, 0, 0, 7, 0, 0, 0, 1, 80, 16, 32, 0, 0, 0, 0, 0] :
        List Nat).getD 11 0 = 4294967297 % 4294967296 := by
  constructor
  · exact ack_advance_c3_amended.1 _ [true, false] rfl
  · exact ack_advance_c3_amended.2 4294967297 1234 80 7 ackOnlyFlags 8192 _
      (by decide) (by decide) (by decide) (by decide) (by decide) (by decide) rfl

/-- C6 amended witness: with configured windowScale two (clamped to one)
and an active transfer the tick window is 49152. -/
theorem window_computation_c6_witness :
    computeWindowSize
      ((validateConfig
        { targetPort := 80
          attackDuration := 30
          packetInterval := 10
          ackAdvanceSize := 1000
          windowScale := 2
          enableTransfer := true
          measureSpeed := false }).windowScale) true =
      (if true then 49152 else 32768) :=
  (window_computation_c6
    { targetPort := 80
      attackDuration := 30
      packetInterval := 10
      ackAdvanceSize := 1000
      windowScale := 2
      enableTransfer := true
      measureSpeed := false } true).2.2.2 (by norm_num)

theorem sum16_replicate (n : Nat) :
    sum16 (List.replicate (2 * n) 255) = n * 65535 := by
  induction n with
  | zero => rfl
  | succ m ih =>
    have h2 : 2 * (m + 1) = (2 * m) + 1 + 1 := by omega
    rw [h2, List.replicate_succ, List.replicate_succ]
    show 255 * 256 + 255 + sum16 (List.replicate (2 * m) 255) = (m + 1) * 65535
    rw [ih]
    ring

/-- C2 counterexample: on the 131074-byte buffer of 0xFF bytes the word
sum is 4294967295, at least 2 to the 31, so the ToInt32 coercion inside
the JavaScript bitwise operators wraps: the code returns 1 while the
standard Internet checksum of the same bytes is 0. -/
theorem checksum_large_input_counterexample :
    calculateChecksum (List.replicate 131074 255) = 1 ∧
    internetChecksum (List.replicate 131074 255) = 0 ∧
    (1 : Int) ≠ ((0 : Nat) : Int) := by
  have hsn : sum16 (List.replicate 131074 255) = 4294967295 := by
    rw [show (131074 : Nat) = 2 * 65537 by norm_num, sum16_replicate]
  refine ⟨?_, ?_, by norm_num⟩
  · unfold calculateChecksum
    rw [hsn]
    have h1 : jsAnd ((4294967295 : Nat) : Int) 65535 = 65535 := by decide
    have h2 : jsShr16 ((4294967295 : Nat) : Int) = -1 := by decide
    rw [foldJS, dif_pos (by norm_num), h1, h2,
      show (65535 : Int) + -1 = 65534 by norm_num,
      foldJS, dif_neg (by norm_num)]
    decide
  · rw [internetChecksum, toWords_sum, hsn]
    rw [foldCarries, dif_pos (by norm_num),
      show (4294967295 : Nat) % 65536 + 4294967295 / 65536 = 131070 by norm_num,
      foldCarries, dif_pos (by norm_num),
      show (131070 : Nat) % 65536 + 131070 / 65536 = 65535 by norm_num,
      foldCarries, dif_neg (by norm_num)]
    decide

/-- C2 amended: the JavaScript checksum agrees with the standard Internet
checksum on every byte sequence whose 16-bit word sum stays below 2 to the
31 (every buffer the crafter builds, and any input of such bounded sum);
and the checksum input of the optimistic-ACK builder is exactly the
12-byte pseudo-header (source address, destination address, reserved zero,
protocol 6, 16-bit length) concatenated with the header whose checksum
field is still zero. -/
theorem checksum_c2_amended :
    (∀ data : List Nat, (sum16 data : Int) < 2147483648 →
      calculateChecksum data = ((internetChecksum data : Nat) : Int)) ∧
    (∀ (sIP dIP : IPv4) (sp dp seq ack w : Int),
      validIPv4 sIP → validIPv4 dIP → 0 ≤ sp → sp ≤ 65535 → 0 ≤ dp → dp ≤ 65535 →
      0 ≤ w →
      ∃ hdr pseudo,
        createTCPHeader sp dp seq ack ackOnlyFlags (min w 65535) = .ok hdr ∧
        hdr.length = 20 ∧ hdr.getD 16 0 = 0 ∧ hdr.getD 17 0 = 0 ∧
        createPseudoHeader sIP dIP 20 = .ok pseudo ∧
        pseudo.length = 12 ∧
        pseudo.getD 0 0 = sIP.p0.toNat ∧ pseudo.getD 1 0 = sIP.p1.toNat ∧
        pseudo.getD 2 0 = sIP.p2.toNat ∧ pseudo.getD 3 0 = sIP.p3.toNat ∧
        pseudo.getD 4 0 = dIP.p0.toNat ∧ pseudo.getD 5 0 = dIP.p1.toNat ∧
        pseudo.getD 6 0 = dIP.p2.toNat ∧ pseudo.getD 7 0 = dIP.p3.toNat ∧
        pseudo.getD 8 0 = 0 ∧ pseudo.getD 9 0 = 6 ∧
        pseudo.getD 10 0 = 0 ∧ pseudo.getD 11 0 = 20 ∧
        createOptimisticACKPacket sIP sp dIP dp seq ack w =
          .ok (writeUInt16BE hdr (calculateChecksum (pseudo ++ hdr)).toNat 16)) := by
  constructor
  · intro data h
    rw [calculateChecksum_eq_ideal data h, internetChecksum_eq_ideal data]
  · intro sIP dIP sp dp seq ack w hs hd hsp0 hsp1 hdp0 hdp1 hw0
    have hH := createTCPHeader_layout sp dp seq ack ackOnlyFlags (min w 65535)
      hsp0 hsp1 hdp0 hdp1 (le_min hw0 (by norm_num)) (min_le_right _ _)
    have hP := createPseudoHeader_layout20 sIP dIP hs hd
    refine ⟨_, _, hH, rfl, rfl, rfl, hP, rfl, rfl, rfl, rfl, rfl, rfl, rfl, rfl,
      rfl, rfl, rfl, rfl, rfl, createOptimisticACKPacket_eq sIP dIP sp dp seq ack w
        _ _ hH rfl hP⟩

/-- C2 amended witness: agreement at a small concrete buffer, and the
checksum-input decomposition at a concrete packet. -/
theorem checksum_c2_amended_witness :
    (calculateChecksum [0, 1, 255, 254] =
      ((internetChecksum [0, 1, 255, 254] : Nat) : Int)) ∧
    (∃ hdr pseudo,
        createTCPHeader 1000 80 5 6 ackOnlyFlags (min 70000 65535) = .ok hdr ∧
        hdr.length = 20 ∧ hdr.getD 16 0 = 0 ∧ hdr.getD 17 0 = 0 ∧
        createPseudoHeader ⟨127, 0, 0, 1⟩ ⟨192, 168, 1, 1⟩ 20 = .ok pseudo ∧
        pseudo.length = 12 ∧
        pseudo.getD 0 0 = (127 : Int).toNat ∧ pseudo.getD 1 0 = (0 : Int).toNat ∧
        pseudo.getD 2 0 = (0 : Int).toNat ∧ pseudo.getD 3 0 = (1 : Int).toNat ∧
        pseudo.getD 4 0 = (192 : Int).toNat ∧ pseudo.getD 5 0 = (168 : Int).toNat ∧
        pseudo.getD 6 0 = (1 : Int).toNat ∧ pseudo.getD 7 0 = (1 : Int).toNat ∧
        pseudo.getD 8 0 = 0 ∧ pseudo.getD 9 0 = 6 ∧
        pseudo.getD 10 0 = 0 ∧ pseudo.getD 11 0 = 20 ∧
        createOptimisticACKPacket ⟨127, 0, 0, 1⟩ 1000 ⟨192, 168, 1, 1⟩ 80 5 6
            70000 =
          .ok (writeUInt16BE hdr (calculateChecksum (pseudo ++ hdr)).toNat 16)) :=
  ⟨checksum_c2_amended.1 [0, 1, 255, 254] (by decide),
   checksum_c2_amended.2 ⟨127, 0, 0, 1⟩ ⟨192, 168, 1, 1⟩ 1000 80 5 6 70000
     (by decide) (by decide) (by decide) (by decide) (by decide) (by decide)
     (by decide)⟩

theorem flagsByte2_le (fl : TCPFlags) : flagsByte2 fl ≤ 63 := by
  rw [flagsByte2_additive]
  split_ifs <;> norm_num

theorem sum16_write16_header
    (x0 x1 x2 x3 x4 x5 x6 x7 x8 x9 x10 x11 x12 x13 x14 x15 x18 x19 v : Nat) :
    sum16 (writeUInt16BE
      [x0, x1, x2, x3, x4, x5, x6, x7, x8, x9, x10, x11, x12, x13, x14, x15,
       0, 0, x18, x19] v 16) =
    sum16 [x0, x1, x2, x3, x4, x5, x6, x7, x8, x9, x10, x11, x12, x13, x14, x15,
       0, 0, x18, x19] + v := by
  simp only [writeUInt16BE, List.set, sum16]
  omega

theorem sum16_le_of_bytes (l : List Nat) (h : ∀ b ∈ l, b ≤ 255) :
    sum16 l ≤ 65536 * l.length := by
  induction l using sum16.induct with
  | case1 => simp [sum16]
  | case2 b =>
    have hb := h b (by simp)
    simp only [sum16, List.length_cons, List.length_nil]
    omega
  | case3 b0 b1 rest ih =>
    have h0 := h b0 (by simp)
    have h1 := h b1 (by simp)
    have hr : ∀ b ∈ rest, b ≤ 255 := fun b hb => h b (by simp [hb])
    have hrest := ih hr
    simp only [sum16, List.length_cons]
    omega

theorem foldCarries_verify (S c : Nat) (hpos : 0 < S) (hlt : S ≤ 2100000)
    (hc : c = 65535 - foldCarries S) : foldCarries (S + c) = 65535 := by
  have h1 := foldCarries_le S
  have h2 := foldCarries_mod S
  apply foldCarries_of_mod_zero <;> omega

set_option maxHeartbeats 3200000 in
set_option maxRecDepth 8000 in
/-- C1: for every header the optimistic-ACK builder produces, the checksum
computed over pseudo-header concatenated with the zero-checksum header and
written at offset 16 makes the verification sum come out right: summing
all 16-bit big-endian words of pseudo-header concatenated with the final
header, folding carries above 16 bits back, yields exactly 0xFFFF. -/
theorem checksum_verifies_c1 : ∀ (sIP dIP : IPv4) (sp dp seq ack w : Int),
    validIPv4 sIP → validIPv4 dIP → 0 ≤ sp → sp ≤ 65535 → 0 ≤ dp → dp ≤ 65535 →
    0 ≤ w →
    ∃ buf pseudo,
      createOptimisticACKPacket sIP sp dIP dp seq ack w = .ok buf ∧
      buf.length = 20 ∧
      createPseudoHeader sIP dIP 20 = .ok pseudo ∧
      foldCarries (toWords (pseudo ++ buf)).sum = 65535 := by
  intro sIP dIP sp dp seq ack w hs hd hsp0 hsp1 hdp0 hdp1 hw0
  have hwmin0 : 0 ≤ min w 65535 := le_min hw0 (by norm_num)
  have hwmin1 : min w 65535 ≤ 65535 := min_le_right _ _
  have hH := createTCPHeader_layout sp dp seq ack ackOnlyFlags (min w 65535)
    hsp0 hsp1 hdp0 hdp1 hwmin0 hwmin1
  have hP := createPseudoHeader_layout20 sIP dIP hs hd
  refine ⟨_, _, createOptimisticACKPacket_eq sIP dIP sp dp seq ack w _ _ hH rfl hP,
    ?_, hP, ?_⟩
  · simp only [writeUInt16BE, List.length_set]
    rfl
  · obtain ⟨hs0, hs1, hs2, hs3, hs4, hs5, hs6, hs7⟩ := hs
    obtain ⟨hd0, hd1, hd2, hd3, hd4, hd5, hd6, hd7⟩ := hd
    have hfb : flagsByte2 ackOnlyFlags = 16 := rfl
    have hseqlt := toUint32_lt seq
    have hacklt := toUint32_lt ack
    set P : List Nat :=
      [sIP.p0.toNat, sIP.p1.toNat, sIP.p2.toNat, sIP.p3.toNat,
       dIP.p0.toNat, dIP.p1.toNat, dIP.p2.toNat, dIP.p3.toNat, 0, 6, 0, 20]
      with hPdef
    set L : List Nat :=
      [sp.toNat / 256, sp.toNat % 256, dp.toNat / 256, dp.toNat % 256,
       toUint32 seq / 16777216 % 256, toUint32 seq / 65536 % 256,
       toUint32 seq / 256 % 256, toUint32 seq % 256,
       toUint32 ack / 16777216 % 256, toUint32 ack / 65536 % 256,
       toUint32 ack / 256 % 256, toUint32 ack % 256,
       80, flagsByte2 ackOnlyFlags,
       (min w 65535).toNat / 256, (min w 65535).toNat % 256, 0, 0, 0, 0]
      with hLdef
    have hPpar : P.length % 2 = 0 := by
      rw [hPdef]
      simp
    have happ : sum16 (P ++ L) = sum16 P + sum16 L := by
      rw [hPdef, hLdef]
      exact sum16_append_even _ _ (by simp)
    have hPsum : sum16 P =
        (sIP.p0.toNat * 256 + sIP.p1.toNat) + ((sIP.p2.toNat * 256 + sIP.p3.toNat) +
          ((dIP.p0.toNat * 256 + dIP.p1.toNat) + ((dIP.p2.toNat * 256 + dIP.p3.toNat) +
            (6 + 20)))) := by
      rw [hPdef]
      rfl
    have hbufsum : ∀ v : Nat, sum16 (writeUInt16BE L v 16) = sum16 L + v := by
      intro v
      rw [hLdef]
      exact sum16_write16_header (sp.toNat / 256) (sp.toNat % 256)
        (dp.toNat / 256) (dp.toNat % 256) (toUint32 seq / 16777216 % 256)
        (toUint32 seq / 65536 % 256) (toUint32 seq / 256 % 256) (toUint32 seq % 256)
        (toUint32 ack / 16777216 % 256) (toUint32 ack / 65536 % 256)
        (toUint32 ack / 256 % 256) (toUint32 ack % 256) 80 (flagsByte2 ackOnlyFlags)
        ((min w 65535).toNat / 256) ((min w 65535).toNat % 256) 0 0 v
    have hbytes : ∀ b ∈ P ++ L, b ≤ 255 := by
      intro b hb
      rw [hPdef, hLdef] at hb
      simp only [List.mem_append, List.mem_cons, List.not_mem_nil, or_false] at hb
      have hfb63 := flagsByte2_le ackOnlyFlags
      rcases hb with hb | hb <;>
        rcases hb with rfl | rfl | rfl | rfl | rfl | rfl | rfl | rfl | rfl | rfl |
          rfl | rfl | rfl | rfl | rfl | rfl | rfl | rfl | rfl | rfl <;>
        omega
    have hlen32 : (P ++ L).length = 32 := by
      rw [hPdef, hLdef]
      simp
    have hub : sum16 (P ++ L) ≤ 2097152 := by
      have h := sum16_le_of_bytes (P ++ L) hbytes
      rw [hlen32] at h
      omega
    have hpos : 0 < sum16 (P ++ L) := by
      rw [happ, hPsum]
      omega
    have hcnat : (calculateChecksum (P ++ L)).toNat =
        65535 - foldCarries (sum16 (P ++ L)) := by
      rw [calculateChecksum_eq_ideal (P ++ L) (by omega)]
      omega
    rw [toWords_sum, sum16_append_even _ _ hPpar, hbufsum _, hcnat,
      ← Nat.add_assoc, ← happ]
    exact foldCarries_verify _ _ hpos (by omega) rfl

/-- C1 witness at a concrete packet. -/
theorem checksum_verifies_c1_witness :
    ∃ buf pseudo,
      createOptimisticACKPacket ⟨127, 0, 0, 1⟩ 1000 ⟨192, 168, 1, 1⟩ 80 5 6
          65535 = .ok buf ∧
      buf.length = 20 ∧
      createPseudoHeader ⟨127, 0, 0, 1⟩ ⟨192, 168, 1, 1⟩ 20 = .ok pseudo ∧
      foldCarries (toWords (pseudo ++ buf)).sum = 65535 :=
  checksum_verifies_c1 ⟨127, 0, 0, 1⟩ ⟨192, 168, 1, 1⟩ 1000 80 5 6 65535
    (by decide) (by decide) (by decide) (by decide) (by decide) (by decide)
    (by decide)

end OptAck
